import Mathlib

/-!
Verification development for the AfterCare data-access layer.

The repository is a TypeScript mobile client whose core is a thin
data-access layer over a remote table store (Supabase):
configuration resolver and memoized connection handle provider
(src/lib/supabase.ts), a user bootstrap routine
(src/lib/user-helpers.ts), and per-entity record gateways
(src/lib/database-helpers.ts).

This file is a shallow embedding of that layer.  Remote behavior that
the client merely relays (the PostgREST evaluation of the one query
shape this client builds: select-all, order by one field descending,
optional row limit, plus single-row insert/update/delete keyed by id)
is modelled as explicit functions on a backend table state.  Faults of
the transport are injected through an explicit `Fault` oracle: the
remote call can succeed, return a structured error pair, or throw; the
TypeScript try/catch blocks are embedded as total handling of the
`thrown` constructor.  JavaScript truthiness, where the source relies
on it (empty strings in the configuration check, `if (limit)`,
`authUser?.id ||` and `if (!userId)` fallbacks), is embedded
explicitly.  Server-side row-level security is out of scope (the
backend list passed to a gateway already stands for the rows visible
to the caller), as are the value constraints the schema enforces.
Timestamps are modelled as naturals.
-/

namespace AfterCare

/-! ## Data model (src/types, src/supabase/migrations/001_initial_schema.sql) -/

inductive Importance where
  | low
  | medium
  | high
deriving Repr, DecidableEq

/-- Row of `public.users`. -/
structure UserRow where
  id : String
  created_at : Nat
  updated_at : Nat
deriving Repr, DecidableEq

/-- Row of `public.events`. -/
structure EventRow where
  id : String
  user_id : String
  type : String
  time : Option Nat
  importance : Importance
  created_at : Nat
deriving Repr, DecidableEq

/-- Row of `public.check_ins`. -/
structure CheckInRow where
  id : String
  user_id : String
  mood : String
  energy : Int
  emotions : List String
  timestamp : Nat
  created_at : Nat
deriving Repr, DecidableEq

/-- Row of `public.reflections`. -/
structure ReflectionRow where
  id : String
  user_id : String
  content : String
  created_at : Nat
deriving Repr, DecidableEq

/-- Insert payload for events: optional fields default server-side. -/
structure EventInsert where
  id : Option String := none
  user_id : String
  type : String
  time : Option (Option Nat) := none
  importance : Importance
  created_at : Option Nat := none
deriving Repr, DecidableEq

/-- Update payload for events: omitted fields are left unchanged. -/
structure EventUpdate where
  id : Option String := none
  user_id : Option String := none
  type : Option String := none
  time : Option (Option Nat) := none
  importance : Option Importance := none
  created_at : Option Nat := none
deriving Repr, DecidableEq

structure CheckInInsert where
  id : Option String := none
  user_id : String
  mood : String
  energy : Int
  emotions : Option (List String) := none
  timestamp : Option Nat := none
  created_at : Option Nat := none
deriving Repr, DecidableEq

structure CheckInUpdate where
  id : Option String := none
  user_id : Option String := none
  mood : Option String := none
  energy : Option Int := none
  emotions : Option (List String) := none
  timestamp : Option Nat := none
  created_at : Option Nat := none
deriving Repr, DecidableEq

structure ReflectionInsert where
  id : Option String := none
  user_id : String
  content : String
  created_at : Option Nat := none
deriving Repr, DecidableEq

structure ReflectionUpdate where
  id : Option String := none
  user_id : Option String := none
  content : Option String := none
  created_at : Option Nat := none
deriving Repr, DecidableEq

/-! ## Results and faults -/

/-- A structured error value, as carried in the `error` slot of every
result pair. -/
structure SbError where
  message : String
deriving Repr, DecidableEq

/-- The `\x7b data, error \x7d` pair every payload-returning helper
resolves to. -/
structure DbResult (α : Type) where
  data : Option α
  error : Option SbError
deriving Repr, DecidableEq

/-- The `\x7b error \x7d` pair the delete helpers resolve to. -/
structure DeleteResult where
  error : Option SbError
deriving Repr, DecidableEq

/-- Outcome of one remote round trip, injected as an oracle: the await
can resolve normally, resolve to an error pair, or reject (throw).  A
thrown value can be anything in JavaScript, so it is an optional
structured error; the catch blocks substitute a fallback message when
it is missing. -/
inductive Fault where
  | ok
  | errorResult (e : SbError)
  | thrown (e : Option SbError)
deriving Repr, DecidableEq

/-! ## Configuration resolver and connection handle provider
(src/lib/supabase.ts) -/

/-- The two connection parameters after resolution of build-time and
process-environment sources.  `none` stands for an unset variable; the
empty string is a set-but-empty value, which JavaScript truthiness
treats the same as unset. -/
structure Config where
  supabaseUrl : Option String
  supabaseAnonKey : Option String
deriving Repr, DecidableEq

/-- JavaScript truthiness of an optional string. -/
def strTruthy : Option String → Bool
  | none => false
  | some s => s != ""

/-- `isSupabaseConfigured`: both parameters present and non-empty
(the source computes `!!(supabaseUrl && supabaseAnonKey)`). -/
def isSupabaseConfigured (cfg : Config) : Bool :=
  strTruthy cfg.supabaseUrl && strTruthy cfg.supabaseAnonKey

/-- State of the lazily initialized provider: the memoized handle (a
handle is identified by the value of the construction counter at the
moment it was built) and the number of successful constructions so
far. -/
structure ClientState where
  memo : Option Nat
  built : Nat
deriving Repr, DecidableEq

/-- Provider state at process start: nothing memoized, nothing
built. -/
def freshClientState : ClientState := { memo := none, built := 0 }

/-- `getSupabaseClient` of src/lib/supabase.ts: return the memoized
handle if present; otherwise, if configuration is incomplete return
`none` without throwing; otherwise attempt construction
(`constructOk` injects the outcome of `createClient`, whose failure
the source catches), memoizing on success. -/
def getSupabaseClient (cfg : Config) (constructOk : Bool)
    (s : ClientState) : Option Nat × ClientState :=
  match s.memo with
  | some c => (some c, s)
  | none =>
    if isSupabaseConfigured cfg then
      if constructOk then
        (some s.built, { memo := some s.built, built := s.built + 1 })
      else
        (none, s)
    else
      (none, s)

/-- Run `n` successive calls of the provider, collecting the returned
handles and the final state. -/
def runClientCalls (cfg : Config) (constructOk : Bool) :
    Nat → ClientState → List (Option Nat) × ClientState
  | 0, s => ([], s)
  | n + 1, s =>
    let p := getSupabaseClient cfg constructOk s
    let q := runClientCalls cfg constructOk n p.2
    (p.1 :: q.1, q.2)

/-- Whether a gateway call sees a client: the gateways re-obtain the
handle on every call, so with a fixed configuration this is determined
by the configuration check and the construction outcome. -/
def clientAvailable (cfg : Config) (constructOk : Bool) : Bool :=
  isSupabaseConfigured cfg && constructOk

/-! ## The one read-query shape this client builds -/

/-- The list request a gateway sends: select-all on one table, with
equality filters (this client never adds any), one descending order
field, and an optional row limit. -/
structure ListQuery where
  table : String
  filters : List (String × String)
  orderBy : String
  descending : Bool
  limit : Option Nat
deriving Repr, DecidableEq

/-- Build the list query the source builds: `.select(*)` then
`.order(field, descending)`, then `.limit(n)` only when `if (limit)`
is truthy, i.e. when the argument is given and non-zero. -/
def buildListQuery (table orderBy : String) (limit : Option Nat) : ListQuery :=
  { table := table
    filters := []
    orderBy := orderBy
    descending := true
    limit :=
      match limit with
      | some n => if n == 0 then none else some n
      | none => none }

def buildEventsQuery (limit : Option Nat) : ListQuery :=
  buildListQuery "events" "created_at" limit

def buildCheckInsQuery (limit : Option Nat) : ListQuery :=
  buildListQuery "check_ins" "timestamp" limit

def buildReflectionsQuery (limit : Option Nat) : ListQuery :=
  buildListQuery "reflections" "created_at" limit

/-! ## Server model

The backend list passed to a gateway stands for the rows currently
visible to the caller; evaluating one of the queries built above sorts
them descending by the ordered field and applies the limit when the
query carries one. -/

/-- Descending comparison on the event creation time. -/
def eventTimeGE (a b : EventRow) : Prop := b.created_at ≤ a.created_at

instance : DecidableRel eventTimeGE := fun _ _ => Nat.decLe _ _

instance : IsTotal EventRow eventTimeGE :=
  ⟨fun a b => Nat.le_total b.created_at a.created_at⟩

instance : IsTrans EventRow eventTimeGE :=
  ⟨fun _ _ _ hab hbc => Nat.le_trans hbc hab⟩

/-- Descending comparison on the check-in occurrence time. -/
def checkInTimeGE (a b : CheckInRow) : Prop := b.timestamp ≤ a.timestamp

instance : DecidableRel checkInTimeGE := fun _ _ => Nat.decLe _ _

instance : IsTotal CheckInRow checkInTimeGE :=
  ⟨fun a b => Nat.le_total b.timestamp a.timestamp⟩

instance : IsTrans CheckInRow checkInTimeGE :=
  ⟨fun _ _ _ hab hbc => Nat.le_trans hbc hab⟩

/-- Descending comparison on the reflection creation time. -/
def reflectionTimeGE (a b : ReflectionRow) : Prop := b.created_at ≤ a.created_at

instance : DecidableRel reflectionTimeGE := fun _ _ => Nat.decLe _ _

instance : IsTotal ReflectionRow reflectionTimeGE :=
  ⟨fun a b => Nat.le_total b.created_at a.created_at⟩

instance : IsTrans ReflectionRow reflectionTimeGE :=
  ⟨fun _ _ _ hab hbc => Nat.le_trans hbc hab⟩

/-- Apply the optional row limit of a query. -/
def applyLimit (lim : Option Nat) (l : List α) : List α :=
  match lim with
  | some n => l.take n
  | none => l

def serverListEvents (rows : List EventRow) (q : ListQuery) : List EventRow :=
  applyLimit q.limit (List.insertionSort eventTimeGE rows)

def serverListCheckIns (rows : List CheckInRow) (q : ListQuery) : List CheckInRow :=
  applyLimit q.limit (List.insertionSort checkInTimeGE rows)

def serverListReflections (rows : List ReflectionRow) (q : ListQuery) :
    List ReflectionRow :=
  applyLimit q.limit (List.insertionSort reflectionTimeGE rows)

/-! ## Record gateways (src/lib/database-helpers.ts)

Each gateway takes the configuration, the construction outcome of the
handle provider, the fault oracle for its one round trip, and the
visible backend rows; it returns its result pair, the backend rows
after the call, and what it sent over the network (the built query for
list calls, a round-trip count for the others), so that the theorems
can speak about requests issued. -/

/-- `SUPABASE_NOT_CONFIGURED_ERROR` of src/lib/database-helpers.ts. -/
def SUPABASE_NOT_CONFIGURED_ERROR : SbError :=
  ⟨"Supabase is not configured. Please set EXPO_PUBLIC_SUPABASE_URL and EXPO_PUBLIC_SUPABASE_ANON_KEY."⟩

/-- The error `.single()` yields when the filtered set does not have
exactly one row. -/
def SINGLE_ROW_ERROR : SbError :=
  ⟨"JSON object requested, multiple (or no) rows returned"⟩

/-- Row the server materializes for an event insert: caller-supplied
fields verbatim, server defaults for the omitted ones. -/
def serverInsertEvent (serverId : String) (serverNow : Nat)
    (e : EventInsert) : EventRow :=
  { id := e.id.getD serverId
    user_id := e.user_id
    type := e.type
    time := e.time.getD none
    importance := e.importance
    created_at := e.created_at.getD serverNow }

def createEvent (cfg : Config) (constructOk : Bool) (fault : Fault)
    (serverId : String) (serverNow : Nat)
    (backend : List EventRow) (event : EventInsert) :
    DbResult EventRow × List EventRow × Nat :=
  if clientAvailable cfg constructOk then
    match fault with
    | .ok =>
      let row := serverInsertEvent serverId serverNow event
      (⟨some row, none⟩, backend ++ [row], 1)
    | .errorResult e => (⟨none, some e⟩, backend, 1)
    | .thrown e =>
      (⟨none, some (e.getD ⟨"Failed to create event"⟩)⟩, backend, 1)
  else
    (⟨none, some SUPABASE_NOT_CONFIGURED_ERROR⟩, backend, 0)

def getEvents (cfg : Config) (constructOk : Bool) (fault : Fault)
    (backend : List EventRow) (limit : Option Nat) :
    DbResult (List EventRow) × List ListQuery :=
  if clientAvailable cfg constructOk then
    let q := buildEventsQuery limit
    match fault with
    | .ok => (⟨some (serverListEvents backend q), none⟩, [q])
    | .errorResult e => (⟨none, some e⟩, [q])
    | .thrown e => (⟨none, some (e.getD ⟨"Failed to fetch events"⟩)⟩, [q])
  else
    (⟨none, some SUPABASE_NOT_CONFIGURED_ERROR⟩, [])

/-- Fields of an update payload merged over an existing row; omitted
fields are left unchanged, not nulled. -/
def applyEventUpdate (r : EventRow) (u : EventUpdate) : EventRow :=
  { id := u.id.getD r.id
    user_id := u.user_id.getD r.user_id
    type := u.type.getD r.type
    time := u.time.getD r.time
    importance := u.importance.getD r.importance
    created_at := u.created_at.getD r.created_at }

def updateEvent (cfg : Config) (constructOk : Bool) (fault : Fault)
    (backend : List EventRow) (id : String) (updates : EventUpdate) :
    DbResult EventRow × List EventRow × Nat :=
  if clientAvailable cfg constructOk then
    match fault with
    | .ok =>
      let touched := backend.map fun r =>
        if r.id == id then applyEventUpdate r updates else r
      match backend.filter (fun r => r.id == id) with
      | [r] => (⟨some (applyEventUpdate r updates), none⟩, touched, 1)
      | _ => (⟨none, some SINGLE_ROW_ERROR⟩, touched, 1)
    | .errorResult e => (⟨none, some e⟩, backend, 1)
    | .thrown e =>
      (⟨none, some (e.getD ⟨"Failed to update event"⟩)⟩, backend, 1)
  else
    (⟨none, some SUPABASE_NOT_CONFIGURED_ERROR⟩, backend, 0)

def deleteEvent (cfg : Config) (constructOk : Bool) (fault : Fault)
    (backend : List EventRow) (id : String) :
    DeleteResult × List EventRow × Nat :=
  if clientAvailable cfg constructOk then
    match fault with
    | .ok => (⟨none⟩, backend.filter (fun r => r.id != id), 1)
    | .errorResult e => (⟨some e⟩, backend, 1)
    | .thrown e => (⟨some (e.getD ⟨"Failed to delete event"⟩)⟩, backend, 1)
  else
    (⟨some SUPABASE_NOT_CONFIGURED_ERROR⟩, backend, 0)

def serverInsertCheckIn (serverId : String) (serverNow : Nat)
    (c : CheckInInsert) : CheckInRow :=
  { id := c.id.getD serverId
    user_id := c.user_id
    mood := c.mood
    energy := c.energy
    emotions := c.emotions.getD []
    timestamp := c.timestamp.getD serverNow
    created_at := c.created_at.getD serverNow }

def createCheckIn (cfg : Config) (constructOk : Bool) (fault : Fault)
    (serverId : String) (serverNow : Nat)
    (backend : List CheckInRow) (checkIn : CheckInInsert) :
    DbResult CheckInRow × List CheckInRow × Nat :=
  if clientAvailable cfg constructOk then
    match fault with
    | .ok =>
      let row := serverInsertCheckIn serverId serverNow checkIn
      (⟨some row, none⟩, backend ++ [row], 1)
    | .errorResult e => (⟨none, some e⟩, backend, 1)
    | .thrown e =>
      (⟨none, some (e.getD ⟨"Failed to create check-in"⟩)⟩, backend, 1)
  else
    (⟨none, some SUPABASE_NOT_CONFIGURED_ERROR⟩, backend, 0)

def getCheckIns (cfg : Config) (constructOk : Bool) (fault : Fault)
    (backend : List CheckInRow) (limit : Option Nat) :
    DbResult (List CheckInRow) × List ListQuery :=
  if clientAvailable cfg constructOk then
    let q := buildCheckInsQuery limit
    match fault with
    | .ok => (⟨some (serverListCheckIns backend q), none⟩, [q])
    | .errorResult e => (⟨none, some e⟩, [q])
    | .thrown e => (⟨none, some (e.getD ⟨"Failed to fetch check-ins"⟩)⟩, [q])
  else
    (⟨none, some SUPABASE_NOT_CONFIGURED_ERROR⟩, [])

def applyCheckInUpdate (r : CheckInRow) (u : CheckInUpdate) : CheckInRow :=
  { id := u.id.getD r.id
    user_id := u.user_id.getD r.user_id
    mood := u.mood.getD r.mood
    energy := u.energy.getD r.energy
    emotions := u.emotions.getD r.emotions
    timestamp := u.timestamp.getD r.timestamp
    created_at := u.created_at.getD r.created_at }

def updateCheckIn (cfg : Config) (constructOk : Bool) (fault : Fault)
    (backend : List CheckInRow) (id : String) (updates : CheckInUpdate) :
    DbResult CheckInRow × List CheckInRow × Nat :=
  if clientAvailable cfg constructOk then
    match fault with
    | .ok =>
      let touched := backend.map fun r =>
        if r.id == id then applyCheckInUpdate r updates else r
      match backend.filter (fun r => r.id == id) with
      | [r] => (⟨some (applyCheckInUpdate r updates), none⟩, touched, 1)
      | _ => (⟨none, some SINGLE_ROW_ERROR⟩, touched, 1)
    | .errorResult e => (⟨none, some e⟩, backend, 1)
    | .thrown e =>
      (⟨none, some (e.getD ⟨"Failed to update check-in"⟩)⟩, backend, 1)
  else
    (⟨none, some SUPABASE_NOT_CONFIGURED_ERROR⟩, backend, 0)

def deleteCheckIn (cfg : Config) (constructOk : Bool) (fault : Fault)
    (backend : List CheckInRow) (id : String) :
    DeleteResult × List CheckInRow × Nat :=
  if clientAvailable cfg constructOk then
    match fault with
    | .ok => (⟨none⟩, backend.filter (fun r => r.id != id), 1)
    | .errorResult e => (⟨some e⟩, backend, 1)
    | .thrown e => (⟨some (e.getD ⟨"Failed to delete check-in"⟩)⟩, backend, 1)
  else
    (⟨some SUPABASE_NOT_CONFIGURED_ERROR⟩, backend, 0)

def serverInsertReflection (serverId : String) (serverNow : Nat)
    (r : ReflectionInsert) : ReflectionRow :=
  { id := r.id.getD serverId
    user_id := r.user_id
    content := r.content
    created_at := r.created_at.getD serverNow }

def createReflection (cfg : Config) (constructOk : Bool) (fault : Fault)
    (serverId : String) (serverNow : Nat)
    (backend : List ReflectionRow) (reflection : ReflectionInsert) :
    DbResult ReflectionRow × List ReflectionRow × Nat :=
  if clientAvailable cfg constructOk then
    match fault with
    | .ok =>
      let row := serverInsertReflection serverId serverNow reflection
      (⟨some row, none⟩, backend ++ [row], 1)
    | .errorResult e => (⟨none, some e⟩, backend, 1)
    | .thrown e =>
      (⟨none, some (e.getD ⟨"Failed to create reflection"⟩)⟩, backend, 1)
  else
    (⟨none, some SUPABASE_NOT_CONFIGURED_ERROR⟩, backend, 0)

def getReflections (cfg : Config) (constructOk : Bool) (fault : Fault)
    (backend : List ReflectionRow) (limit : Option Nat) :
    DbResult (List ReflectionRow) × List ListQuery :=
  if clientAvailable cfg constructOk then
    let q := buildReflectionsQuery limit
    match fault with
    | .ok => (⟨some (serverListReflections backend q), none⟩, [q])
    | .errorResult e => (⟨none, some e⟩, [q])
    | .thrown e =>
      (⟨none, some (e.getD ⟨"Failed to fetch reflections"⟩)⟩, [q])
  else
    (⟨none, some SUPABASE_NOT_CONFIGURED_ERROR⟩, [])

def applyReflectionUpdate (r : ReflectionRow) (u : ReflectionUpdate) :
    ReflectionRow :=
  { id := u.id.getD r.id
    user_id := u.user_id.getD r.user_id
    content := u.content.getD r.content
    created_at := u.created_at.getD r.created_at }

def updateReflection (cfg : Config) (constructOk : Bool) (fault : Fault)
    (backend : List ReflectionRow) (id : String) (updates : ReflectionUpdate) :
    DbResult ReflectionRow × List ReflectionRow × Nat :=
  if clientAvailable cfg constructOk then
    match fault with
    | .ok =>
      let touched := backend.map fun r =>
        if r.id == id then applyReflectionUpdate r updates else r
      match backend.filter (fun r => r.id == id) with
      | [r] => (⟨some (applyReflectionUpdate r updates), none⟩, touched, 1)
      | _ => (⟨none, some SINGLE_ROW_ERROR⟩, touched, 1)
    | .errorResult e => (⟨none, some e⟩, backend, 1)
    | .thrown e =>
      (⟨none, some (e.getD ⟨"Failed to update reflection"⟩)⟩, backend, 1)
  else
    (⟨none, some SUPABASE_NOT_CONFIGURED_ERROR⟩, backend, 0)

def deleteReflection (cfg : Config) (constructOk : Bool) (fault : Fault)
    (backend : List ReflectionRow) (id : String) :
    DeleteResult × List ReflectionRow × Nat :=
  if clientAvailable cfg constructOk then
    match fault with
    | .ok => (⟨none⟩, backend.filter (fun r => r.id != id), 1)
    | .errorResult e => (⟨some e⟩, backend, 1)
    | .thrown e =>
      (⟨some (e.getD ⟨"Failed to delete reflection"⟩)⟩, backend, 1)
  else
    (⟨some SUPABASE_NOT_CONFIGURED_ERROR⟩, backend, 0)

/-! ## Session bootstrap (src/lib/user-helpers.ts)

`initializeUser` is embedded against a deterministic backend state:
the authenticated identity held by the auth subsystem and the rows of
the `users` table, together with how many rows this layer has inserted
into it.  Two oracles close the remaining environment: `signInOk`
(whether anonymous identity creation succeeds, granting `newId`) and
`race` (whether a concurrent bootstrap inserts the row for the same
identity between the existence check and the insert, making the insert
fail with a uniqueness conflict).  The transport itself is taken
fault-free here; the returned `Nat` counts the remote round trips the
call issued. -/

structure SysState where
  authUser : Option String
  users : List UserRow
  insertCount : Nat
deriving Repr, DecidableEq

/-- `new Error(User ID not found)` of src/lib/user-helpers.ts. -/
def USER_ID_NOT_FOUND_ERROR : SbError := ⟨"User ID not found"⟩

/-- A genuine anonymous-authentication failure reported by the auth
subsystem; its message does not contain the words `not configured`, so
the bootstrap surfaces it instead of silencing it. -/
def SIGN_IN_FAILED_ERROR : SbError := ⟨"Anonymous sign-ins are disabled"⟩

/-- The uniqueness-conflict error the store reports when the insert
races a concurrent bootstrap on the `users` primary key. -/
def UNIQUE_VIOLATION_ERROR : SbError :=
  ⟨"duplicate key value violates unique constraint users_pkey"⟩

/-- Steps 4 to 6 of the bootstrap, after an identity id has been
resolved: reject an empty (falsy) id, look the row up, return it if
found, otherwise insert a fresh row with only the id set.  Under
`race` the insert collides with a row a concurrent caller created
after our existence check: the store reports a uniqueness conflict,
which the source returns as the error of the pair (it does not re-read
the row). -/
def initializeUserResolved (userId : String) (serverNow : Nat) (race : Bool)
    (s : SysState) : DbResult UserRow × SysState × Nat :=
  if userId == "" then
    (⟨none, some USER_ID_NOT_FOUND_ERROR⟩, s, 0)
  else
    match s.users.find? (fun u => u.id == userId) with
    | some u => (⟨some u, none⟩, s, 1)
    | none =>
      if race then
        (⟨none, some UNIQUE_VIOLATION_ERROR⟩,
         { s with users := s.users ++ [⟨userId, serverNow, serverNow⟩] }, 2)
      else
        let row : UserRow := ⟨userId, serverNow, serverNow⟩
        (⟨some row, none⟩,
         { s with users := s.users ++ [row],
                  insertCount := s.insertCount + 1 }, 2)

/-- `initializeUser` of src/lib/user-helpers.ts.  With configuration
incomplete it returns success with an absent payload at once.  With
construction of the handle failing, `getCurrentUser` and then
`signInAnonymously` both report a message containing `not configured`,
which the source treats as the same silent no-op.  Otherwise it uses
the current identity, creating an anonymous one when absent (a
failure of that creation is surfaced), and runs the
resolved-identity steps. -/
def initializeUser (cfg : Config) (constructOk signInOk : Bool)
    (newId : String) (serverNow : Nat) (race : Bool)
    (s : SysState) : DbResult UserRow × SysState × Nat :=
  if !isSupabaseConfigured cfg then
    (⟨none, none⟩, s, 0)
  else if !constructOk then
    (⟨none, none⟩, s, 0)
  else
    match s.authUser with
    | some uid =>
      let p := initializeUserResolved uid serverNow race s
      (p.1, p.2.1, p.2.2 + 1)
    | none =>
      if !signInOk then
        (⟨none, some SIGN_IN_FAILED_ERROR⟩, s, 2)
      else
        let p := initializeUserResolved newId serverNow race
          { s with authUser := some newId }
        (p.1, p.2.1, p.2.2 + 3)

/-! ## Concrete sample values used by witnesses and counterexamples -/

def cfgOK : Config := ⟨some "https://example.supabase.co", some "public-anon-key"⟩

def cfgMissing : Config := ⟨none, none⟩

def evA : EventRow := ⟨"ev-a", "u1", "meeting", none, .medium, 5⟩

def evB : EventRow := ⟨"ev-b", "u1", "call", some 4, .low, 9⟩

def ciA : CheckInRow := ⟨"ci-a", "u1", "calm", 7, ["content"], 6, 6⟩

def rfA : ReflectionRow := ⟨"rf-a", "u1", "today went well", 4⟩

def evIns : EventInsert := { user_id := "u1", type := "meeting", importance := .medium }

def ciIns : CheckInInsert := { user_id := "u1", mood := "calm", energy := 7 }

def rfIns : ReflectionInsert := { user_id := "u1", content := "a note" }

def evUpd : EventUpdate := { type := some "renamed" }

def ciUpd : CheckInUpdate := { mood := some "tired" }

def rfUpd : ReflectionUpdate := { content := some "edited" }

/-- Bootstrap state in which the profile row for the authenticated
identity already exists. -/
def stateExisting : SysState := ⟨some "u1", [⟨"u1", 3, 3⟩], 0⟩

/-- Bootstrap state for a fresh authenticated identity with no profile
row yet. -/
def stateFresh : SysState := ⟨some "u1", [], 0⟩

/-! # Theorems -/

/-! ## Helper lemmas about the connection handle provider -/

theorem getSupabaseClient_memo (cfg : Config) (cok : Bool) (c b : Nat) :
    getSupabaseClient cfg cok ⟨some c, b⟩ = (some c, ⟨some c, b⟩) := rfl

theorem runClientCalls_memo (cfg : Config) (cok : Bool) (c b : Nat) :
    ∀ n, runClientCalls cfg cok n ⟨some c, b⟩
      = (List.replicate n (some c), ⟨some c, b⟩)
  | 0 => rfl
  | n + 1 => by
    simp [runClientCalls, getSupabaseClient_memo, runClientCalls_memo cfg cok c b n,
      List.replicate_succ]

theorem getSupabaseClient_unconfigured (cfg : Config) (cok : Bool)
    (s : ClientState) (h : isSupabaseConfigured cfg = false)
    (hm : s.memo = none) : getSupabaseClient cfg cok s = (none, s) := by
  obtain ⟨m, b⟩ := s
  cases hm
  simp [getSupabaseClient, h]

theorem runClientCalls_unconfigured (cfg : Config) (cok : Bool)
    (h : isSupabaseConfigured cfg = false) :
    ∀ n, runClientCalls cfg cok n freshClientState
      = (List.replicate n none, freshClientState)
  | 0 => rfl
  | n + 1 => by
    simp [runClientCalls, getSupabaseClient_unconfigured cfg cok freshClientState h rfl,
      runClientCalls_unconfigured cfg cok h n, List.replicate_succ]

theorem getSupabaseClient_buildFails (cfg : Config) (s : ClientState)
    (hm : s.memo = none) : getSupabaseClient cfg false s = (none, s) := by
  obtain ⟨m, b⟩ := s
  cases hm
  by_cases h : isSupabaseConfigured cfg <;> simp [getSupabaseClient, h]

theorem runClientCalls_buildFails (cfg : Config) :
    ∀ n, runClientCalls cfg false n freshClientState
      = (List.replicate n none, freshClientState)
  | 0 => rfl
  | n + 1 => by
    simp [runClientCalls, getSupabaseClient_buildFails cfg freshClientState rfl,
      runClientCalls_buildFails cfg n, List.replicate_succ]

/-- C6: the connection handle provider, when configuration is complete
and construction succeeds, constructs exactly one handle over any
number of calls from the fresh process state, memoizes it, and returns
the identical instance on every call; when configuration is incomplete
every call returns `none` and nothing is ever built; a caught
construction failure likewise yields `none` on every call with nothing
built; the provider is a total function, so it never throws. -/
theorem provider_memoizes_single_handle :
    (∀ cfg : Config, isSupabaseConfigured cfg = true → ∀ n : Nat,
      runClientCalls cfg true (n + 1) freshClientState
        = (List.replicate (n + 1) (some 0), ⟨some 0, 1⟩)) ∧
    (∀ cfg : Config, isSupabaseConfigured cfg = false → ∀ cok n,
      runClientCalls cfg cok n freshClientState
        = (List.replicate n none, freshClientState)) ∧
    (∀ cfg : Config, ∀ n,
      runClientCalls cfg false n freshClientState
        = (List.replicate n none, freshClientState)) := by
  refine ⟨fun cfg h n => ?_, fun cfg h cok n => ?_, fun cfg n => ?_⟩
  · simp [runClientCalls, freshClientState, getSupabaseClient, h,
      runClientCalls_memo, List.replicate_succ]
  · exact runClientCalls_unconfigured cfg cok h n
  · exact runClientCalls_buildFails cfg n

/-- C6 witness: the three branches at concrete configurations, three
calls each. -/
theorem provider_memoizes_single_handle_witness :
    runClientCalls cfgOK true 3 freshClientState
      = (List.replicate 3 (some 0), ⟨some 0, 1⟩) ∧
    runClientCalls cfgMissing true 3 freshClientState
      = (List.replicate 3 none, freshClientState) ∧
    runClientCalls cfgOK false 3 freshClientState
      = (List.replicate 3 none, freshClientState) :=
  ⟨provider_memoizes_single_handle.1 cfgOK (by decide) 2,
   provider_memoizes_single_handle.2.1 cfgMissing (by decide) true 3,
   provider_memoizes_single_handle.2.2 cfgOK 3⟩

/-- C3: with the connection parameters absent, every gateway operation
returns the structured not-configured error with an absent payload and
an untouched backend, the bootstrap returns success with an absent
payload and an untouched state, and no operation issues any network
request (the issued-request component is empty or zero) or throws. -/
theorem not_configured_degrades (cfg : Config)
    (h : isSupabaseConfigured cfg = false)
    (cok sOk : Bool) (fault : Fault) (sid newId : String) (now : Nat)
    (race : Bool) (be : List EventRow) (bc : List CheckInRow)
    (br : List ReflectionRow) (ev : EventInsert) (ci : CheckInInsert)
    (rf : ReflectionInsert) (eu : EventUpdate) (cu : CheckInUpdate)
    (ru : ReflectionUpdate) (lim : Option Nat) (id : String) (s : SysState) :
    createEvent cfg cok fault sid now be ev
        = (⟨none, some SUPABASE_NOT_CONFIGURED_ERROR⟩, be, 0) ∧
    getEvents cfg cok fault be lim
        = (⟨none, some SUPABASE_NOT_CONFIGURED_ERROR⟩, []) ∧
    updateEvent cfg cok fault be id eu
        = (⟨none, some SUPABASE_NOT_CONFIGURED_ERROR⟩, be, 0) ∧
    deleteEvent cfg cok fault be id
        = (⟨some SUPABASE_NOT_CONFIGURED_ERROR⟩, be, 0) ∧
    createCheckIn cfg cok fault sid now bc ci
        = (⟨none, some SUPABASE_NOT_CONFIGURED_ERROR⟩, bc, 0) ∧
    getCheckIns cfg cok fault bc lim
        = (⟨none, some SUPABASE_NOT_CONFIGURED_ERROR⟩, []) ∧
    updateCheckIn cfg cok fault bc id cu
        = (⟨none, some SUPABASE_NOT_CONFIGURED_ERROR⟩, bc, 0) ∧
    deleteCheckIn cfg cok fault bc id
        = (⟨some SUPABASE_NOT_CONFIGURED_ERROR⟩, bc, 0) ∧
    createReflection cfg cok fault sid now br rf
        = (⟨none, some SUPABASE_NOT_CONFIGURED_ERROR⟩, br, 0) ∧
    getReflections cfg cok fault br lim
        = (⟨none, some SUPABASE_NOT_CONFIGURED_ERROR⟩, []) ∧
    updateReflection cfg cok fault br id ru
        = (⟨none, some SUPABASE_NOT_CONFIGURED_ERROR⟩, br, 0) ∧
    deleteReflection cfg cok fault br id
        = (⟨some SUPABASE_NOT_CONFIGURED_ERROR⟩, br, 0) ∧
    initializeUser cfg cok sOk newId now race s = (⟨none, none⟩, s, 0) := by
  have hca : clientAvailable cfg cok = false := by
    simp [clientAvailable, h]
  refine ⟨?_, ?_, ?_, ?_, ?_, ?_, ?_, ?_, ?_, ?_, ?_, ?_, ?_⟩ <;>
    simp [createEvent, getEvents, updateEvent, deleteEvent, createCheckIn,
      getCheckIns, updateCheckIn, deleteCheckIn, createReflection,
      getReflections, updateReflection, deleteReflection, initializeUser,
      hca, h]

/-- C3 witness: the not-configured outcomes at a concrete empty
configuration and concrete inputs. -/
theorem not_configured_degrades_witness :
    createEvent cfgMissing true .ok "srv" 0 [evA] evIns
        = (⟨none, some SUPABASE_NOT_CONFIGURED_ERROR⟩, [evA], 0) ∧
    getEvents cfgMissing true .ok [evA] (some 2)
        = (⟨none, some SUPABASE_NOT_CONFIGURED_ERROR⟩, []) ∧
    updateEvent cfgMissing true .ok [evA] "ev-a" evUpd
        = (⟨none, some SUPABASE_NOT_CONFIGURED_ERROR⟩, [evA], 0) ∧
    deleteEvent cfgMissing true .ok [evA] "ev-a"
        = (⟨some SUPABASE_NOT_CONFIGURED_ERROR⟩, [evA], 0) ∧
    createCheckIn cfgMissing true .ok "srv" 0 [ciA] ciIns
        = (⟨none, some SUPABASE_NOT_CONFIGURED_ERROR⟩, [ciA], 0) ∧
    getCheckIns cfgMissing true .ok [ciA] (some 2)
        = (⟨none, some SUPABASE_NOT_CONFIGURED_ERROR⟩, []) ∧
    updateCheckIn cfgMissing true .ok [ciA] "ci-a" ciUpd
        = (⟨none, some SUPABASE_NOT_CONFIGURED_ERROR⟩, [ciA], 0) ∧
    deleteCheckIn cfgMissing true .ok [ciA] "ci-a"
        = (⟨some SUPABASE_NOT_CONFIGURED_ERROR⟩, [ciA], 0) ∧
    createReflection cfgMissing true .ok "srv" 0 [rfA] rfIns
        = (⟨none, some SUPABASE_NOT_CONFIGURED_ERROR⟩, [rfA], 0) ∧
    getReflections cfgMissing true .ok [rfA] (some 2)
        = (⟨none, some SUPABASE_NOT_CONFIGURED_ERROR⟩, []) ∧
    updateReflection cfgMissing true .ok [rfA] "rf-a" rfUpd
        = (⟨none, some SUPABASE_NOT_CONFIGURED_ERROR⟩, [rfA], 0) ∧
    deleteReflection cfgMissing true .ok [rfA] "rf-a"
        = (⟨some SUPABASE_NOT_CONFIGURED_ERROR⟩, [rfA], 0) ∧
    initializeUser cfgMissing true true "x" 0 false stateFresh
        = (⟨none, none⟩, stateFresh, 0) :=
  not_configured_degrades cfgMissing (by decide) true true .ok "srv" "x" 0
    false [evA] [ciA] [rfA] evIns ciIns rfIns evUpd ciUpd rfUpd (some 2)
    "ev-a" stateFresh

/-- C4: no gateway operation lets a fault escape its boundary: the
operations are total functions into result pairs, and whenever the
round trip does not resolve normally (it resolves to an error pair or
rejects), the returned pair carries an absent payload together with a
present structured error. -/
theorem gateway_faults_returned_structured (cfg : Config) (cok : Bool)
    (fault : Fault) (h : fault ≠ .ok) (sid : String) (now : Nat)
    (be : List EventRow) (bc : List CheckInRow) (br : List ReflectionRow)
    (ev : EventInsert) (ci : CheckInInsert) (rf : ReflectionInsert)
    (eu : EventUpdate) (cu : CheckInUpdate) (ru : ReflectionUpdate)
    (lim : Option Nat) (id : String) :
    ((createEvent cfg cok fault sid now be ev).1.data = none ∧
      (createEvent cfg cok fault sid now be ev).1.error.isSome) ∧
    ((getEvents cfg cok fault be lim).1.data = none ∧
      (getEvents cfg cok fault be lim).1.error.isSome) ∧
    ((updateEvent cfg cok fault be id eu).1.data = none ∧
      (updateEvent cfg cok fault be id eu).1.error.isSome) ∧
    (deleteEvent cfg cok fault be id).1.error.isSome ∧
    ((createCheckIn cfg cok fault sid now bc ci).1.data = none ∧
      (createCheckIn cfg cok fault sid now bc ci).1.error.isSome) ∧
    ((getCheckIns cfg cok fault bc lim).1.data = none ∧
      (getCheckIns cfg cok fault bc lim).1.error.isSome) ∧
    ((updateCheckIn cfg cok fault bc id cu).1.data = none ∧
      (updateCheckIn cfg cok fault bc id cu).1.error.isSome) ∧
    (deleteCheckIn cfg cok fault bc id).1.error.isSome ∧
    ((createReflection cfg cok fault sid now br rf).1.data = none ∧
      (createReflection cfg cok fault sid now br rf).1.error.isSome) ∧
    ((getReflections cfg cok fault br lim).1.data = none ∧
      (getReflections cfg cok fault br lim).1.error.isSome) ∧
    ((updateReflection cfg cok fault br id ru).1.data = none ∧
      (updateReflection cfg cok fault br id ru).1.error.isSome) ∧
    (deleteReflection cfg cok fault br id).1.error.isSome := by
  by_cases hca : clientAvailable cfg cok = true <;>
    cases fault with
    | ok => exact absurd rfl h
    | errorResult e =>
      simp [createEvent, getEvents, updateEvent, deleteEvent, createCheckIn,
        getCheckIns, updateCheckIn, deleteCheckIn, createReflection,
        getReflections, updateReflection, deleteReflection, hca]
    | thrown e =>
      simp [createEvent, getEvents, updateEvent, deleteEvent, createCheckIn,
        getCheckIns, updateCheckIn, deleteCheckIn, createReflection,
        getReflections, updateReflection, deleteReflection, hca]

/-- C4 witness: a rejecting round trip at concrete inputs yields absent
payloads and present errors everywhere. -/
theorem gateway_faults_returned_structured_witness :
    ((createEvent cfgOK true (.thrown none) "srv" 0 [evA] evIns).1.data = none ∧
      (createEvent cfgOK true (.thrown none) "srv" 0 [evA] evIns).1.error.isSome) ∧
    ((getEvents cfgOK true (.thrown none) [evA] none).1.data = none ∧
      (getEvents cfgOK true (.thrown none) [evA] none).1.error.isSome) ∧
    ((updateEvent cfgOK true (.thrown none) [evA] "ev-a" evUpd).1.data = none ∧
      (updateEvent cfgOK true (.thrown none) [evA] "ev-a" evUpd).1.error.isSome) ∧
    (deleteEvent cfgOK true (.thrown none) [evA] "ev-a").1.error.isSome ∧
    ((createCheckIn cfgOK true (.thrown none) "srv" 0 [ciA] ciIns).1.data = none ∧
      (createCheckIn cfgOK true (.thrown none) "srv" 0 [ciA] ciIns).1.error.isSome) ∧
    ((getCheckIns cfgOK true (.thrown none) [ciA] none).1.data = none ∧
      (getCheckIns cfgOK true (.thrown none) [ciA] none).1.error.isSome) ∧
    ((updateCheckIn cfgOK true (.thrown none) [ciA] "ev-a" ciUpd).1.data = none ∧
      (updateCheckIn cfgOK true (.thrown none) [ciA] "ev-a" ciUpd).1.error.isSome) ∧
    (deleteCheckIn cfgOK true (.thrown none) [ciA] "ev-a").1.error.isSome ∧
    ((createReflection cfgOK true (.thrown none) "srv" 0 [rfA] rfIns).1.data = none ∧
      (createReflection cfgOK true (.thrown none) "srv" 0 [rfA] rfIns).1.error.isSome) ∧
    ((getReflections cfgOK true (.thrown none) [rfA] none).1.data = none ∧
      (getReflections cfgOK true (.thrown none) [rfA] none).1.error.isSome) ∧
    ((updateReflection cfgOK true (.thrown none) [rfA] "ev-a" rfUpd).1.data = none ∧
      (updateReflection cfgOK true (.thrown none) [rfA] "ev-a" rfUpd).1.error.isSome) ∧
    (deleteReflection cfgOK true (.thrown none) [rfA] "ev-a").1.error.isSome :=
  gateway_faults_returned_structured cfgOK true (.thrown none) (by decide)
    "srv" 0 [evA] [ciA] [rfA] evIns ciIns rfIns evUpd ciUpd rfUpd none "ev-a"

/-- C10: every payload-returning gateway operation keeps the
exclusivity invariant of the result pair: the payload is absent
exactly when the error is present, so the pair is never both-absent
and never both-present; the bootstrap alone escapes it, returning
both payload and error absent when configuration is missing. -/
theorem result_pair_exclusivity (cfg : Config) (cok : Bool)
    (fault : Fault) (sid : String) (now : Nat)
    (be : List EventRow) (bc : List CheckInRow) (br : List ReflectionRow)
    (ev : EventInsert) (ci : CheckInInsert) (rf : ReflectionInsert)
    (eu : EventUpdate) (cu : CheckInUpdate) (ru : ReflectionUpdate)
    (lim : Option Nat) (id : String) :
    ((createEvent cfg cok fault sid now be ev).1.data.isNone
      = (createEvent cfg cok fault sid now be ev).1.error.isSome) ∧
    ((getEvents cfg cok fault be lim).1.data.isNone
      = (getEvents cfg cok fault be lim).1.error.isSome) ∧
    ((updateEvent cfg cok fault be id eu).1.data.isNone
      = (updateEvent cfg cok fault be id eu).1.error.isSome) ∧
    ((createCheckIn cfg cok fault sid now bc ci).1.data.isNone
      = (createCheckIn cfg cok fault sid now bc ci).1.error.isSome) ∧
    ((getCheckIns cfg cok fault bc lim).1.data.isNone
      = (getCheckIns cfg cok fault bc lim).1.error.isSome) ∧
    ((updateCheckIn cfg cok fault bc id cu).1.data.isNone
      = (updateCheckIn cfg cok fault bc id cu).1.error.isSome) ∧
    ((createReflection cfg cok fault sid now br rf).1.data.isNone
      = (createReflection cfg cok fault sid now br rf).1.error.isSome) ∧
    ((getReflections cfg cok fault br lim).1.data.isNone
      = (getReflections cfg cok fault br lim).1.error.isSome) ∧
    ((updateReflection cfg cok fault br id ru).1.data.isNone
      = (updateReflection cfg cok fault br id ru).1.error.isSome) ∧
    ((initializeUser cfgMissing true true "x" 0 false stateFresh).1.data = none ∧
      (initializeUser cfgMissing true true "x" 0 false stateFresh).1.error = none) := by
  refine ⟨?_, ?_, ?_, ?_, ?_, ?_, ?_, ?_, ?_, by decide⟩ <;>
    (by_cases hca : clientAvailable cfg cok = true <;>
      cases fault <;>
        simp [createEvent, getEvents, updateEvent, deleteEvent, createCheckIn,
          getCheckIns, updateCheckIn, deleteCheckIn, createReflection,
          getReflections, updateReflection, deleteReflection, hca] <;>
        (try split) <;> simp)

/-- C5 counterexample: `limit = 0` is falsy in JavaScript, so the
source skips the `.limit` modifier entirely and the whole table comes
back: on a one-row table, `list(limit = 0)` returns one row, not at
most zero rows. -/
theorem list_limit_zero_returns_all :
    (getEvents cfgOK true .ok [evA] (some 0)).1.data = some [evA] ∧
    ¬([evA].length ≤ 0) := by
  constructor
  · decide
  · simp

/-- C5 (amended): for every positive integer N, each list operation
returns at most N rows ordered descending by the natural time field
(creation time for events and reflections, occurrence time for
check-ins); with no limit, all visible rows are returned in that
order.  (`limit = 0` is excluded: being falsy, it is treated as no
limit.) -/
theorem list_ordered_and_limited (cfg : Config) (cok : Bool)
    (be : List EventRow) (bc : List CheckInRow) (br : List ReflectionRow)
    (n : Nat) (hca : clientAvailable cfg cok = true) (hn : 1 ≤ n) :
    (∃ l, (getEvents cfg cok .ok be (some n)).1.data = some l ∧
      l.length ≤ n ∧ List.Sorted eventTimeGE l) ∧
    (∃ l, (getEvents cfg cok .ok be none).1.data = some l ∧
      l.length = be.length ∧ List.Sorted eventTimeGE l) ∧
    (∃ l, (getCheckIns cfg cok .ok bc (some n)).1.data = some l ∧
      l.length ≤ n ∧ List.Sorted checkInTimeGE l) ∧
    (∃ l, (getCheckIns cfg cok .ok bc none).1.data = some l ∧
      l.length = bc.length ∧ List.Sorted checkInTimeGE l) ∧
    (∃ l, (getReflections cfg cok .ok br (some n)).1.data = some l ∧
      l.length ≤ n ∧ List.Sorted reflectionTimeGE l) ∧
    (∃ l, (getReflections cfg cok .ok br none).1.data = some l ∧
      l.length = br.length ∧ List.Sorted reflectionTimeGE l) := by
  have hne : n ≠ 0 := by omega
  refine ⟨⟨(List.insertionSort eventTimeGE be).take n, ?_, ?_, ?_⟩,
    ⟨List.insertionSort eventTimeGE be, ?_, ?_, ?_⟩,
    ⟨(List.insertionSort checkInTimeGE bc).take n, ?_, ?_, ?_⟩,
    ⟨List.insertionSort checkInTimeGE bc, ?_, ?_, ?_⟩,
    ⟨(List.insertionSort reflectionTimeGE br).take n, ?_, ?_, ?_⟩,
    ⟨List.insertionSort reflectionTimeGE br, ?_, ?_, ?_⟩⟩
  · simp [getEvents, hca, buildEventsQuery, buildListQuery, serverListEvents,
      applyLimit, hne]
  · simp [List.length_take]
  · exact (List.sorted_insertionSort _ _).sublist (List.take_sublist n _)
  · simp [getEvents, hca, buildEventsQuery, buildListQuery, serverListEvents,
      applyLimit]
  · exact List.length_insertionSort _ _
  · exact List.sorted_insertionSort _ _
  · simp [getCheckIns, hca, buildCheckInsQuery, buildListQuery,
      serverListCheckIns, applyLimit, hne]
  · simp [List.length_take]
  · exact (List.sorted_insertionSort _ _).sublist (List.take_sublist n _)
  · simp [getCheckIns, hca, buildCheckInsQuery, buildListQuery,
      serverListCheckIns, applyLimit]
  · exact List.length_insertionSort _ _
  · exact List.sorted_insertionSort _ _
  · simp [getReflections, hca, buildReflectionsQuery, buildListQuery,
      serverListReflections, applyLimit, hne]
  · simp [List.length_take]
  · exact (List.sorted_insertionSort _ _).sublist (List.take_sublist n _)
  · simp [getReflections, hca, buildReflectionsQuery, buildListQuery,
      serverListReflections, applyLimit]
  · exact List.length_insertionSort _ _
  · exact List.sorted_insertionSort _ _

/-- C5 witness: the amended bound and ordering at concrete inputs,
with limit 1 over a two-row events table. -/
theorem list_ordered_and_limited_witness :
    (∃ l, (getEvents cfgOK true .ok [evA, evB] (some 1)).1.data = some l ∧
      l.length ≤ 1 ∧ List.Sorted eventTimeGE l) ∧
    (∃ l, (getEvents cfgOK true .ok [evA, evB] none).1.data = some l ∧
      l.length = [evA, evB].length ∧ List.Sorted eventTimeGE l) ∧
    (∃ l, (getCheckIns cfgOK true .ok [ciA] (some 1)).1.data = some l ∧
      l.length ≤ 1 ∧ List.Sorted checkInTimeGE l) ∧
    (∃ l, (getCheckIns cfgOK true .ok [ciA] none).1.data = some l ∧
      l.length = [ciA].length ∧ List.Sorted checkInTimeGE l) ∧
    (∃ l, (getReflections cfgOK true .ok [rfA] (some 1)).1.data = some l ∧
      l.length ≤ 1 ∧ List.Sorted reflectionTimeGE l) ∧
    (∃ l, (getReflections cfgOK true .ok [rfA] none).1.data = some l ∧
      l.length = [rfA].length ∧ List.Sorted reflectionTimeGE l) :=
  list_ordered_and_limited cfgOK true [evA, evB] [ciA] [rfA] 1
    (by decide) (by decide)

/-- C7: delete is idempotent at this layer for every id, existing or
not: the first delete succeeds with `error = none`, a second delete of
the same id returns the identical outcome and leaves the backend
unchanged, and a list after the delete excludes the id.  (A delete of
a nonexistent id takes the same success branch, so it is
indistinguishable from deleting an existing row.) -/
theorem delete_idempotent (cfg : Config) (cok : Bool)
    (be : List EventRow) (bc : List CheckInRow) (br : List ReflectionRow)
    (id : String) (hca : clientAvailable cfg cok = true) :
    ((deleteEvent cfg cok .ok be id).1.error = none ∧
      (deleteEvent cfg cok .ok (deleteEvent cfg cok .ok be id).2.1 id).1
        = (deleteEvent cfg cok .ok be id).1 ∧
      (deleteEvent cfg cok .ok (deleteEvent cfg cok .ok be id).2.1 id).2.1
        = (deleteEvent cfg cok .ok be id).2.1 ∧
      ∀ l, (getEvents cfg cok .ok (deleteEvent cfg cok .ok be id).2.1 none).1.data
          = some l → ∀ r ∈ l, r.id ≠ id) ∧
    ((deleteCheckIn cfg cok .ok bc id).1.error = none ∧
      (deleteCheckIn cfg cok .ok (deleteCheckIn cfg cok .ok bc id).2.1 id).1
        = (deleteCheckIn cfg cok .ok bc id).1 ∧
      (deleteCheckIn cfg cok .ok (deleteCheckIn cfg cok .ok bc id).2.1 id).2.1
        = (deleteCheckIn cfg cok .ok bc id).2.1 ∧
      ∀ l, (getCheckIns cfg cok .ok (deleteCheckIn cfg cok .ok bc id).2.1 none).1.data
          = some l → ∀ r ∈ l, r.id ≠ id) ∧
    ((deleteReflection cfg cok .ok br id).1.error = none ∧
      (deleteReflection cfg cok .ok (deleteReflection cfg cok .ok br id).2.1 id).1
        = (deleteReflection cfg cok .ok br id).1 ∧
      (deleteReflection cfg cok .ok (deleteReflection cfg cok .ok br id).2.1 id).2.1
        = (deleteReflection cfg cok .ok br id).2.1 ∧
      ∀ l, (getReflections cfg cok .ok (deleteReflection cfg cok .ok br id).2.1 none).1.data
          = some l → ∀ r ∈ l, r.id ≠ id) := by
  refine ⟨⟨?_, ?_, ?_, ?_⟩, ⟨?_, ?_, ?_, ?_⟩, ⟨?_, ?_, ?_, ?_⟩⟩
  · simp [deleteEvent, hca]
  · simp [deleteEvent, hca]
  · simp [deleteEvent, hca, List.filter_filter]
  · intro l hl r hr
    simp [deleteEvent, getEvents, hca, serverListEvents, buildEventsQuery,
      buildListQuery, applyLimit] at hl
    rw [← hl] at hr
    simp [List.mem_filter] at hr
    exact hr.2
  · simp [deleteCheckIn, hca]
  · simp [deleteCheckIn, hca]
  · simp [deleteCheckIn, hca, List.filter_filter]
  · intro l hl r hr
    simp [deleteCheckIn, getCheckIns, hca, serverListCheckIns,
      buildCheckInsQuery, buildListQuery, applyLimit] at hl
    rw [← hl] at hr
    simp [List.mem_filter] at hr
    exact hr.2
  · simp [deleteReflection, hca]
  · simp [deleteReflection, hca]
  · simp [deleteReflection, hca, List.filter_filter]
  · intro l hl r hr
    simp [deleteReflection, getReflections, hca, serverListReflections,
      buildReflectionsQuery, buildListQuery, applyLimit] at hl
    rw [← hl] at hr
    simp [List.mem_filter] at hr
    exact hr.2

/-- C7 witness: delete twice at a concrete id over concrete tables;
the second outcome equals the first and the post-delete list excludes
the id. -/
theorem delete_idempotent_witness :
    ((deleteEvent cfgOK true .ok [evA] "ev-a").1.error = none ∧
      (deleteEvent cfgOK true .ok (deleteEvent cfgOK true .ok [evA] "ev-a").2.1 "ev-a").1
        = (deleteEvent cfgOK true .ok [evA] "ev-a").1 ∧
      (deleteEvent cfgOK true .ok (deleteEvent cfgOK true .ok [evA] "ev-a").2.1 "ev-a").2.1
        = (deleteEvent cfgOK true .ok [evA] "ev-a").2.1 ∧
      ∀ l, (getEvents cfgOK true .ok (deleteEvent cfgOK true .ok [evA] "ev-a").2.1 none).1.data
          = some l → ∀ r ∈ l, r.id ≠ "ev-a") ∧
    ((deleteCheckIn cfgOK true .ok [ciA] "ev-a").1.error = none ∧
      (deleteCheckIn cfgOK true .ok (deleteCheckIn cfgOK true .ok [ciA] "ev-a").2.1 "ev-a").1
        = (deleteCheckIn cfgOK true .ok [ciA] "ev-a").1 ∧
      (deleteCheckIn cfgOK true .ok (deleteCheckIn cfgOK true .ok [ciA] "ev-a").2.1 "ev-a").2.1
        = (deleteCheckIn cfgOK true .ok [ciA] "ev-a").2.1 ∧
      ∀ l, (getCheckIns cfgOK true .ok (deleteCheckIn cfgOK true .ok [ciA] "ev-a").2.1 none).1.data
          = some l → ∀ r ∈ l, r.id ≠ "ev-a") ∧
    ((deleteReflection cfgOK true .ok [rfA] "ev-a").1.error = none ∧
      (deleteReflection cfgOK true .ok (deleteReflection cfgOK true .ok [rfA] "ev-a").2.1 "ev-a").1
        = (deleteReflection cfgOK true .ok [rfA] "ev-a").1 ∧
      (deleteReflection cfgOK true .ok (deleteReflection cfgOK true .ok [rfA] "ev-a").2.1 "ev-a").2.1
        = (deleteReflection cfgOK true .ok [rfA] "ev-a").2.1 ∧
      ∀ l, (getReflections cfgOK true .ok (deleteReflection cfgOK true .ok [rfA] "ev-a").2.1 none).1.data
          = some l → ∀ r ∈ l, r.id ≠ "ev-a") :=
  delete_idempotent cfgOK true [evA] [ciA] [rfA] "ev-a" (by decide)

/-- C8: the list operations send exactly one request, the query built
by the corresponding builder, and that query carries no filter at all
(in particular none on user_id): only the table, the descending order
on the natural time field, and the optional limit, so visibility
scoping is left entirely to the server. -/
theorem list_requests_carry_no_filters (cfg : Config) (cok : Bool)
    (fault : Fault) (be : List EventRow) (bc : List CheckInRow)
    (br : List ReflectionRow) (limE limC limR : Option Nat)
    (hca : clientAvailable cfg cok = true) :
    ((getEvents cfg cok fault be limE).2 = [buildEventsQuery limE] ∧
      (buildEventsQuery limE).filters = [] ∧
      (buildEventsQuery limE).table = "events" ∧
      (buildEventsQuery limE).orderBy = "created_at" ∧
      (buildEventsQuery limE).descending = true) ∧
    ((getCheckIns cfg cok fault bc limC).2 = [buildCheckInsQuery limC] ∧
      (buildCheckInsQuery limC).filters = [] ∧
      (buildCheckInsQuery limC).table = "check_ins" ∧
      (buildCheckInsQuery limC).orderBy = "timestamp" ∧
      (buildCheckInsQuery limC).descending = true) ∧
    ((getReflections cfg cok fault br limR).2 = [buildReflectionsQuery limR] ∧
      (buildReflectionsQuery limR).filters = [] ∧
      (buildReflectionsQuery limR).table = "reflections" ∧
      (buildReflectionsQuery limR).orderBy = "created_at" ∧
      (buildReflectionsQuery limR).descending = true) := by
  cases fault <;>
    simp [getEvents, getCheckIns, getReflections, hca, buildEventsQuery,
      buildCheckInsQuery, buildReflectionsQuery, buildListQuery]

/-- C8 witness: the requests sent at concrete inputs. -/
theorem list_requests_carry_no_filters_witness :
    ((getEvents cfgOK true .ok [evA] (some 3)).2 = [buildEventsQuery (some 3)] ∧
      (buildEventsQuery (some 3)).filters = [] ∧
      (buildEventsQuery (some 3)).table = "events" ∧
      (buildEventsQuery (some 3)).orderBy = "created_at" ∧
      (buildEventsQuery (some 3)).descending = true) ∧
    ((getCheckIns cfgOK true .ok [ciA] none).2 = [buildCheckInsQuery none] ∧
      (buildCheckInsQuery none).filters = [] ∧
      (buildCheckInsQuery none).table = "check_ins" ∧
      (buildCheckInsQuery none).orderBy = "timestamp" ∧
      (buildCheckInsQuery none).descending = true) ∧
    ((getReflections cfgOK true .ok [rfA] none).2 = [buildReflectionsQuery none] ∧
      (buildReflectionsQuery none).filters = [] ∧
      (buildReflectionsQuery none).table = "reflections" ∧
      (buildReflectionsQuery none).orderBy = "created_at" ∧
      (buildReflectionsQuery none).descending = true) :=
  list_requests_carry_no_filters cfgOK true .ok [evA] [ciA] [rfA]
    (some 3) none none (by decide)

/-- C9: for an id that matches no row, update fails the single-row
expectation and returns a present error with an absent payload, while
delete on the same id returns plain success; the two outcomes differ,
so a missing-id update is distinguishable from a successful no-op at
the public interface. -/
theorem update_missing_id_distinguishable (cfg : Config) (cok : Bool)
    (be : List EventRow) (bc : List CheckInRow) (br : List ReflectionRow)
    (id : String) (eu : EventUpdate) (cu : CheckInUpdate)
    (ru : ReflectionUpdate) (hca : clientAvailable cfg cok = true)
    (hbe : ∀ r ∈ be, r.id ≠ id) (hbc : ∀ r ∈ bc, r.id ≠ id)
    (hbr : ∀ r ∈ br, r.id ≠ id) :
    ((updateEvent cfg cok .ok be id eu).1 = ⟨none, some SINGLE_ROW_ERROR⟩ ∧
      (deleteEvent cfg cok .ok be id).1 = ⟨none⟩ ∧
      (updateEvent cfg cok .ok be id eu).1.error
        ≠ (deleteEvent cfg cok .ok be id).1.error) ∧
    ((updateCheckIn cfg cok .ok bc id cu).1 = ⟨none, some SINGLE_ROW_ERROR⟩ ∧
      (deleteCheckIn cfg cok .ok bc id).1 = ⟨none⟩ ∧
      (updateCheckIn cfg cok .ok bc id cu).1.error
        ≠ (deleteCheckIn cfg cok .ok bc id).1.error) ∧
    ((updateReflection cfg cok .ok br id ru).1 = ⟨none, some SINGLE_ROW_ERROR⟩ ∧
      (deleteReflection cfg cok .ok br id).1 = ⟨none⟩ ∧
      (updateReflection cfg cok .ok br id ru).1.error
        ≠ (deleteReflection cfg cok .ok br id).1.error) := by
  have hfe : be.filter (fun r => r.id == id) = [] :=
    List.filter_eq_nil_iff.mpr (by simpa using hbe)
  have hfc : bc.filter (fun r => r.id == id) = [] :=
    List.filter_eq_nil_iff.mpr (by simpa using hbc)
  have hfr : br.filter (fun r => r.id == id) = [] :=
    List.filter_eq_nil_iff.mpr (by simpa using hbr)
  refine ⟨⟨?_, ?_, ?_⟩, ⟨?_, ?_, ?_⟩, ⟨?_, ?_, ?_⟩⟩ <;>
    simp [updateEvent, deleteEvent, updateCheckIn, deleteCheckIn,
      updateReflection, deleteReflection, hca, hfe, hfc, hfr]

/-- C9 witness: at a concrete id absent from concrete tables, updates
error out while deletes succeed. -/
theorem update_missing_id_distinguishable_witness :
    ((updateEvent cfgOK true .ok [evA] "nope" evUpd).1
        = ⟨none, some SINGLE_ROW_ERROR⟩ ∧
      (deleteEvent cfgOK true .ok [evA] "nope").1 = ⟨none⟩ ∧
      (updateEvent cfgOK true .ok [evA] "nope" evUpd).1.error
        ≠ (deleteEvent cfgOK true .ok [evA] "nope").1.error) ∧
    ((updateCheckIn cfgOK true .ok [ciA] "nope" ciUpd).1
        = ⟨none, some SINGLE_ROW_ERROR⟩ ∧
      (deleteCheckIn cfgOK true .ok [ciA] "nope").1 = ⟨none⟩ ∧
      (updateCheckIn cfgOK true .ok [ciA] "nope" ciUpd).1.error
        ≠ (deleteCheckIn cfgOK true .ok [ciA] "nope").1.error) ∧
    ((updateReflection cfgOK true .ok [rfA] "nope" rfUpd).1
        = ⟨none, some SINGLE_ROW_ERROR⟩ ∧
      (deleteReflection cfgOK true .ok [rfA] "nope").1 = ⟨none⟩ ∧
      (updateReflection cfgOK true .ok [rfA] "nope" rfUpd).1.error
        ≠ (deleteReflection cfgOK true .ok [rfA] "nope").1.error) :=
  update_missing_id_distinguishable cfgOK true [evA] [ciA] [rfA]
    "nope" evUpd ciUpd rfUpd (by decide) (by decide) (by decide) (by decide)

/-! ## Helper lemmas about the bootstrap -/

theorem initializeUserResolved_authUser (uid : String) (now : Nat)
    (race : Bool) (s : SysState) :
    (initializeUserResolved uid now race s).2.1.authUser = s.authUser := by
  simp only [initializeUserResolved]
  split
  · rfl
  · split
    · rfl
    · split <;> rfl

theorem initializeUserResolved_insertCount_le (uid : String) (now : Nat)
    (race : Bool) (s : SysState) :
    (initializeUserResolved uid now race s).2.1.insertCount
      ≤ s.insertCount + 1 := by
  simp only [initializeUserResolved]
  split
  · exact Nat.le_succ _
  · split
    · exact Nat.le_succ _
    · split
      · exact Nat.le_succ _
      · exact Nat.le_refl _

/-- Without the concurrency race, running the resolved-identity steps a
second time returns the same result and leaves the state untouched. -/
theorem initializeUserResolved_idem (uid : String) (now : Nat) (s : SysState) :
    (initializeUserResolved uid now false
        ((initializeUserResolved uid now false s).2.1)).1
      = (initializeUserResolved uid now false s).1 ∧
    (initializeUserResolved uid now false
        ((initializeUserResolved uid now false s).2.1)).2.1
      = (initializeUserResolved uid now false s).2.1 := by
  by_cases h0 : (uid == "") = true
  · simp [initializeUserResolved, h0]
  · simp only [Bool.not_eq_true] at h0
    cases hfind : s.users.find? (fun u => u.id == uid) with
    | some u => simp [initializeUserResolved, h0, hfind]
    | none =>
      simp [initializeUserResolved, h0, hfind, List.find?_append]

/-- C2 counterexample: in a backend state where the profile row for
the identity already exists, two sequential bootstrap calls both
return that row but perform zero inserts, not exactly one insert
across both calls. -/
theorem bootstrap_twice_zero_inserts :
    (initializeUser cfgOK true true "x" 7 false stateExisting).1.data
        = some ⟨"u1", 3, 3⟩ ∧
    (initializeUser cfgOK true true "x" 7 false
        ((initializeUser cfgOK true true "x" 7 false stateExisting).2.1)).1.data
        = some ⟨"u1", 3, 3⟩ ∧
    (initializeUser cfgOK true true "x" 7 false
        ((initializeUser cfgOK true true "x" 7 false stateExisting).2.1)).2.1.insertCount
        = 0 := by decide

/-- C2 (amended): the bootstrap is idempotent: a second sequential
call (no concurrent race) returns the same result pair as the first
and leaves the backend state exactly as the first call left it, and at
most one insert is performed across any number of calls (exactly one
only when the first call actually created the row; zero when the row
already existed, when configuration was absent, or when the call
failed). -/
theorem initializeUser_idempotent (cfg : Config) (cok sOk : Bool)
    (newId : String) (now : Nat) (s : SysState) :
    (initializeUser cfg cok sOk newId now false
        ((initializeUser cfg cok sOk newId now false s).2.1)).1
      = (initializeUser cfg cok sOk newId now false s).1 ∧
    (initializeUser cfg cok sOk newId now false
        ((initializeUser cfg cok sOk newId now false s).2.1)).2.1
      = (initializeUser cfg cok sOk newId now false s).2.1 ∧
    (initializeUser cfg cok sOk newId now false s).2.1.insertCount
      ≤ s.insertCount + 1 := by
  by_cases hconf : isSupabaseConfigured cfg = true
  · cases cok with
    | false => simp [initializeUser, hconf]
    | true =>
      cases hau : s.authUser with
      | some uid =>
        have h2 := initializeUserResolved_idem uid now s
        have hau2 : (initializeUserResolved uid now false s).2.1.authUser
            = some uid := by
          rw [initializeUserResolved_authUser]; exact hau
        simp [initializeUser, hconf, hau, hau2, h2.1, h2.2,
          initializeUserResolved_insertCount_le]
      | none =>
        cases sOk with
        | false => simp [initializeUser, hconf, hau]
        | true =>
          have h2 := initializeUserResolved_idem newId now
            { s with authUser := some newId }
          have hau2 : (initializeUserResolved newId now false
              { s with authUser := some newId }).2.1.authUser
              = some newId := by
            rw [initializeUserResolved_authUser]
          simp [initializeUser, hconf, hau, hau2, h2.1, h2.2,
            initializeUserResolved_insertCount_le newId now false
              { s with authUser := some newId }]
  · simp [initializeUser, hconf]

/-- C1 counterexample: when a concurrent bootstrap creates the row
between the existence check and the insert, the uniqueness conflict is
returned to the caller as the error of the pair with an absent
payload, even though the row now exists in the table: the source does
not re-read it and does not return it as success. -/
theorem bootstrap_conflict_surfaced_counterexample :
    (initializeUser cfgOK true true "x" 7 true stateFresh).1
        = ⟨none, some UNIQUE_VIOLATION_ERROR⟩ ∧
    (initializeUser cfgOK true true "x" 7 true stateFresh).2.1.users
        = [⟨"u1", 7, 7⟩] := by decide

/-- C1 (amended): when the bootstrap insert races a concurrent
creation of the same row, `initializeUser` surfaces the uniqueness
conflict to its caller as a structured error with an absent payload;
no re-read of the now-existing row takes place. -/
theorem bootstrap_conflict_surfaced (cfg : Config) (sOk : Bool)
    (newId uid : String) (now : Nat) (s : SysState)
    (hconf : isSupabaseConfigured cfg = true)
    (hau : s.authUser = some uid) (hne : (uid == "") = false)
    (hmiss : s.users.find? (fun u => u.id == uid) = none) :
    (initializeUser cfg true sOk newId now true s).1
      = ⟨none, some UNIQUE_VIOLATION_ERROR⟩ := by
  simp [initializeUser, hconf, hau, initializeUserResolved, hne, hmiss]

/-- C1 witness: the amended behavior at a concrete racing state. -/
theorem bootstrap_conflict_surfaced_witness :
    (initializeUser cfgOK true true "x" 7 true stateFresh).1
      = ⟨none, some UNIQUE_VIOLATION_ERROR⟩ :=
  bootstrap_conflict_surfaced cfgOK true "x" "u1" 7 stateFresh
    (by decide) rfl (by decide) rfl

end AfterCare
